import Mathlib

/-!
Verification of the assistant service layer (`src/server/services/assistant.ts`):
a shallow embedding of `OpenRouterAssistant`, `MockAssistant` and
`createAssistant`, followed by theorems about the embedded operations.

Conventions of the embedding:
* JavaScript strings are Lean `String`; character length is `String.length`.
* Monetary amounts are `ℚ` (the source uses exact decimal literals).
* The network is an oracle `outcomes : Nat → Outcome` giving the transport
  result of each attempt (attempt `n` of a call reads `outcomes n`).
* A caller-supplied `AbortSignal` is the flag `aborted : Bool` (the state the
  signal is in while the call runs).
* `Math.random` draws are explicit parameters (`draw : Fin 5` for the mock's
  choice among its five canned responses).
* Code that the source wraps in `try/catch` around never-throwing statements is
  embedded as the plain computation; thrown-and-caught errors travel as
  `Except String`.
-/

set_option linter.unusedVariables false
set_option linter.unnecessarySeqFocus false

deriving instance DecidableEq for Except

namespace ChatApp

/-- One conversation turn as the code passes it around: `{ role, content }`. -/
structure Msg where
  role : String
  content : String
  deriving DecidableEq, Repr

/-- The record every `getResponse` resolves to: `{ response, model, cost }`. -/
structure AssistantResponse where
  response : String
  model : String
  cost : ℚ
  deriving DecidableEq, Repr

/-- One row of `getModelUsageStats`: `{ model, count, percentage }`. -/
structure UsageStat where
  model : String
  count : Nat
  percentage : ℚ
  deriving DecidableEq, Repr

/-! ### String primitives used by the source (JavaScript built-ins) -/

/-- ASCII lower-casing of one character, as `toLowerCase` acts on the
ASCII strings the source compares. -/
def lowChar (c : Char) : Char :=
  if 65 ≤ c.toNat ∧ c.toNat ≤ 90 then Char.ofNat (c.toNat + 32) else c

/-- JavaScript `s.toLowerCase()`. -/
def lowStr (s : String) : String := String.mk (s.data.map lowChar)

/-- Is `pat` an initial segment of `text`? -/
def headSeq : List Char → List Char → Bool
  | [], _ => true
  | _ :: _, [] => false
  | p :: ps, t :: ts => p == t && headSeq ps ts

/-- Does `pat` occur contiguously anywhere in the text? -/
def occursIn (pat : List Char) : List Char → Bool
  | [] => headSeq pat []
  | t :: ts => headSeq pat (t :: ts) || occursIn pat ts

/-- JavaScript `s.includes(pat)`. -/
def containsTok (s pat : String) : Bool := occursIn pat.data s.data

/-- The whitespace characters relevant to the trims the source performs. -/
def isWs (c : Char) : Bool := c == ' ' || c == '\t' || c == '\n' || c == '\r'

/-- JavaScript test `!s || s.trim() === ''`: the string is empty or
whitespace-only. -/
def trimEmpty (s : String) : Bool := s.data.all isWs

/-- JavaScript truthiness of an optional string (`undefined` and `''` are
falsy). -/
def strTruthy : Option String → Bool
  | none => false
  | some s => s != ""

/-! ### OpenRouterAssistant -/

namespace OpenRouterAssistant

/-- The static `costPerToken` table of `estimateCost`. -/
def costPerToken : List (String × ℚ) :=
  [("anthropic/claude-3-haiku", 25 / 100000000),
   ("anthropic/claude-3-sonnet", 3 / 1000000),
   ("anthropic/claude-3-opus", 15 / 1000000),
   ("meta-llama/llama-3.1-8b-instruct", 2 / 10000000),
   ("openai/gpt-4o-mini", 15 / 100000000)]

/-- `costPerToken[model] || 0.000001`: JavaScript falls back to the default
rate when the lookup is `undefined` (or `0`). -/
def rateFor (model : String) : ℚ :=
  match costPerToken.find? (fun p => p.1 == model) with
  | none => 1 / 1000000
  | some p => if p.2 == 0 then 1 / 1000000 else p.2

/-- `Math.ceil(response.length / 4)`, the rough token estimation. -/
def tokensOf (response : String) : Nat := (response.length + 3) / 4

/-- `estimateCost(response, model)`. -/
def estimateCost (response model : String) : ℚ :=
  (tokensOf response : ℚ) * rateFor model

/-- The `validModels` list of `selectModel`. -/
def validModels : List String :=
  ["anthropic/claude-3-haiku", "anthropic/claude-3-sonnet",
   "meta-llama/llama-3.1-8b-instruct", "openai/gpt-4o-mini"]

/-- `selectModel()`: the `OPENROUTER_MODEL` environment override when truthy,
else `validModels[0]` (Claude Haiku, the deterministic default). -/
def selectModel (envModel : Option String) : String :=
  if strTruthy envModel then envModel.getD "" else validModels.headD ""

/-- `buildMessagesArray(userMessage, conversationHistory)`: the history turns
followed by the final user turn. -/
def buildMessagesArray (userMessage : String) (conversationHistory : List Msg) :
    List Msg :=
  conversationHistory.map (fun msg => ⟨msg.role, msg.content⟩) ++
    [⟨"user", userMessage⟩]

/-- The JSON body of the provider POST: `{model, messages, temperature: 0.7,
max_tokens: 1000}`. -/
structure RequestBody where
  model : String
  messages : List Msg
  temperature : ℚ
  maxTokens : Nat
  deriving DecidableEq, Repr

/-- The request body `fetchResponse` serialises for one attempt. -/
def mkRequestBody (model : String) (messages : List Msg) : RequestBody :=
  ⟨model, messages, 7 / 10, 1000⟩

/-- What the transport (the `fetch` call) does on one attempt. -/
inductive Outcome where
  /-- 2xx with a JSON body whose `choices[i].message.content` are listed. -/
  | ok (choices : List String)
  /-- Non-2xx HTTP status, with the error body text. -/
  | http (status : Nat) (errorText : String)
  /-- The fetch promise rejected (network-level failure) with this message. -/
  | netFail (message : String)
  /-- The internal 90-second timeout aborted the in-flight request. -/
  | timedOut
  deriving DecidableEq, Repr

/-- The message `fetchResponse` throws for a non-ok HTTP status. -/
def httpErrorMessage (status : Nat) (errorText : String) : String :=
  if status == 401 then
    "Invalid API key. Please check your OpenRouter API key configuration."
  else if status == 402 then
    "Insufficient credits. Please check your OpenRouter account balance."
  else if status == 429 then
    "Rate limit exceeded. Please wait a moment before trying again."
  else if 500 ≤ status then
    "OpenRouter service is temporarily unavailable. Please try again in a moment."
  else
    "OpenRouter API error: " ++ toString status ++ " - " ++ errorText

/-- The inner catch of `fetchResponse`: an `AbortError` (the timeout, modelled
by `Outcome.timedOut`) or any error whose message contains `cancelled` is
rethrown as `Request was cancelled`; everything else passes through. -/
def rewriteCancelled (message : String) : String :=
  if containsTok message "cancelled" then "Request was cancelled" else message

/-- One attempt of `fetchResponse`, up to but not including the retry logic:
the pre-flight `signal.aborted` check, the fetch, the status mapping, the
`choices` validation, the final abort check, and the inner catch
(`rewriteCancelled`, with the `AbortError` of the timeout handled at
`timedOut`). -/
def attemptOnce (aborted : Bool) (o : Outcome) : Except String String :=
  if aborted then .error "Request was cancelled"
  else
    match o with
    | .ok choices =>
        match choices with
        | [] => .error (rewriteCancelled "Invalid response format from OpenRouter API")
        | content :: _ =>
            if aborted then .error "Request was cancelled" else .ok content
    | .http status errorText => .error (rewriteCancelled (httpErrorMessage status errorText))
    | .netFail message => .error (rewriteCancelled message)
    | .timedOut => .error "Request was cancelled"

/-- The substrings the retry logic of `fetchResponse` looks for in the
lower-cased error message. -/
def retryTokens : List String :=
  ["rate limit", "timeout", "network", "500", "502", "503"]

/-- `isRetryable` over the already lower-cased message. -/
def isRetryable (errorMsg : String) : Bool :=
  retryTokens.any (fun t => containsTok errorMsg t)

/-- `const maxRetries = 2`. -/
def maxRetries : Nat := 2

/-- What one whole `fetchResponse` call did: its result, the bodies actually
sent over the transport (one per fetch performed), and the backoff delays
slept between attempts, in milliseconds. -/
structure FetchRes where
  result : Except String String
  sent : List RequestBody
  delays : List Nat
  deriving DecidableEq, Repr

/-- `fetchResponse` with its retry recursion. `budget` is `maxRetries -
retryCount`, the number of retries still allowed; the entry point passes
`maxRetries`. Each retry reuses the same `body` and reads the next transport
outcome. -/
def fetchAux (body : RequestBody) (aborted : Bool) (outcomes : Nat → Outcome) :
    Nat → Nat → FetchRes
  | retryCount, budget =>
    let fetched : List RequestBody := if aborted then [] else [body]
    match attemptOnce aborted (outcomes retryCount), budget with
    | .ok content, _ => ⟨.ok content, fetched, []⟩
    | .error e, 0 => ⟨.error e, fetched, []⟩
    | .error e, b + 1 =>
        if retryCount < maxRetries then
          if isRetryable (lowStr e) then
            let rest := fetchAux body aborted outcomes (retryCount + 1) b
            ⟨rest.result, fetched ++ rest.sent, 2 ^ retryCount * 1000 :: rest.delays⟩
          else ⟨.error e, fetched, []⟩
        else ⟨.error e, fetched, []⟩

/-- `fetchResponse(messages, model, signal)` (retryCount starts at 0). -/
def fetchResponse (body : RequestBody) (aborted : Bool)
    (outcomes : Nat → Outcome) : FetchRes :=
  fetchAux body aborted outcomes 0 maxRetries

/-- The generic fallback message of `getResponse`. -/
def genericErrorMessage : String := "Sorry, I encountered an error. Please try again."

/-- The specific user-facing message `getResponse` derives from the thrown
error message (its `catch` block, before the demo-mode override). -/
def specificErrorMessage (thrownMessage : String) : String :=
  let errorMsg := lowStr thrownMessage
  if containsTok errorMsg "timeout" || containsTok errorMsg "abort" then
    "The AI service is taking too long to respond. Please try again in a moment."
  else if containsTok errorMsg "rate limit" || containsTok errorMsg "too many requests" then
    "Too many requests. Please wait a moment before trying again."
  else if containsTok errorMsg "unauthorized" || containsTok errorMsg "api key" then
    "AI service configuration issue. Please check your API settings."
  else if containsTok errorMsg "quota" || containsTok errorMsg "billing" then
    "AI service quota exceeded. Please check your account or try again later."
  else if containsTok errorMsg "network" || containsTok errorMsg "fetch" then
    "Network connection issue. Please check your internet connection and try again."
  else genericErrorMessage

/-- The demo-mode override message. -/
def demoErrorMessage : String :=
  "Demo mode error. This is a showcase - in production, this would connect to real AI models."

/-- The fallback record `getResponse` returns instead of throwing:
`{ response: errorMessage, model: 'error', cost: 0 }`. -/
def errorResponseFor (demoMode : Bool) (thrownMessage : String) :
    AssistantResponse :=
  ⟨if demoMode then demoErrorMessage else specificErrorMessage thrownMessage,
   "error", 0⟩

/-- What one whole `getResponse` call did: the record it resolved to, the
bodies sent over the transport and the backoff delays slept. -/
structure GetRes where
  resp : AssistantResponse
  sent : List RequestBody
  delays : List Nat
  deriving DecidableEq, Repr

/-- `getResponse(userMessage, conversationHistory, options)`. `envModel` is
`process.env.OPENROUTER_MODEL`, `demoMode` is `DEMO_CONFIG.FORCE_MOCK_ASSISTANT
|| DEMO_CONFIG.IS_DEMO`, `aborted` the state of `options?.signal`. -/
def getResponse (envModel : Option String) (demoMode aborted : Bool)
    (outcomes : Nat → Outcome) (userMessage : String)
    (conversationHistory : List Msg) : GetRes :=
  if trimEmpty userMessage then
    ⟨errorResponseFor demoMode "User message cannot be empty", [], []⟩
  else
    let messages := buildMessagesArray userMessage conversationHistory
    let model := selectModel envModel
    let f := fetchResponse (mkRequestBody model messages) aborted outcomes
    match f.result with
    | .ok response =>
        if trimEmpty response then
          ⟨errorResponseFor demoMode "Assistant response is empty", f.sent, f.delays⟩
        else
          ⟨⟨response, model, estimateCost response model⟩, f.sent, f.delays⟩
    | .error e => ⟨errorResponseFor demoMode e, f.sent, f.delays⟩

/-- `recordModelUsage(model)` on the `modelUsage` map, embedded as an
association list in insertion order (JavaScript `Map` preserves it). -/
def recordModelUsage : List (String × Nat) → String → List (String × Nat)
  | [], model => [(model, 1)]
  | (k, c) :: rest, model =>
      if k == model then (k, c + 1) :: rest
      else (k, c) :: recordModelUsage rest model

/-- `getModelUsageStats()` over the current `modelUsage` map. -/
def getModelUsageStats (modelUsage : List (String × Nat)) : List UsageStat :=
  let totalUsage := (modelUsage.map Prod.snd).sum
  if totalUsage == 0 then []
  else
    modelUsage.map (fun p => ⟨p.1, p.2, (p.2 : ℚ) / (totalUsage : ℚ) * 100⟩)

/-- The `modelUsage` map after the given successful completions, starting from
the empty map a fresh instance holds. -/
def usageAfter (models : List String) : List (String × Nat) :=
  models.foldl recordModelUsage []

/-- The keys of the usage map, in insertion order. -/
def keysOf (modelUsage : List (String × Nat)) : List String :=
  modelUsage.map Prod.fst

/-- The count the usage map holds for a model (`0` when absent). -/
def lookupCount : List (String × Nat) → String → Nat
  | [], _ => 0
  | (k, c) :: rest, model => if k == model then c else lookupCount rest model

/-- The provider path of one `getResponse` call failed: the fetch threw, or it
resolved to a blank completion text (which `getResponse` also rejects). -/
def providerFailed (f : FetchRes) : Prop :=
  match f.result with
  | .ok content => trimEmpty content = true
  | .error _ => True

instance (f : FetchRes) : Decidable (providerFailed f) := by
  unfold providerFailed
  match f.result with
  | .ok content => exact inferInstance
  | .error _ => exact inferInstance

end OpenRouterAssistant

/-! ### MockAssistant -/

namespace MockAssistant

/-- The five canned responses `getResponse` picks among; each echoes the
`userMessage` verbatim. -/
def mockResponseChoices (userMessage : String) : List String :=
  ["I understand you're asking about \"" ++ userMessage ++
     "\". This is a demo response - in production, I'd provide a helpful answer!",
   "Thanks for your message: \"" ++ userMessage ++
     "\". This mock assistant shows the chat interface working properly.",
   "You wrote: \"" ++ userMessage ++
     "\" - I'm responding to show the chat flow is working correctly in demo mode.",
   "Got it! You said \"" ++ userMessage ++
     "\". This is a placeholder response from the demo assistant.",
   "I see your message: \"" ++ userMessage ++
     "\". The real version would connect to AI models for actual help!"]

/-- `MockAssistant.getResponse(userMessage, conversationHistory, options)`:
rejects with the cancellation error when the signal is aborted (before or
during the simulated delay), otherwise resolves to one of the five canned
responses chosen by the random draw, with the fixed model identifier and
cost. -/
def getResponse (userMessage : String) (conversationHistory : List Msg)
    (aborted : Bool) (draw : Fin 5) : Except String AssistantResponse :=
  if aborted then .error "Request was cancelled"
  else
    .ok ⟨(mockResponseChoices userMessage).get
           ⟨draw.val, by simp [mockResponseChoices]⟩,
         "demo-assistant-v1", 1 / 1000⟩

/-- `MockAssistant.getModelUsageStats()`: the constant single row. -/
def getModelUsageStats : List UsageStat := [⟨"mock", 1, 100⟩]

end MockAssistant

/-! ### createAssistant -/

/-- Which implementation the factory hands out. -/
inductive AssistantKind where
  | mock
  | live (apiKey : String) (siteName : String)
  deriving DecidableEq, Repr

/-- `apiKey.startsWith('sk-or-v1-')`. -/
def keyFormatOk (apiKey : String) : Bool :=
  headSeq "sk-or-v1-".data apiKey.data

/-- `config.siteName || 'chat-app'`. -/
def siteNameOr (siteName : Option String) : String :=
  if strTruthy siteName then siteName.getD "" else "chat-app"

/-- `createAssistant(config)`. `forceMock`/`isDemo` are the `DEMO_CONFIG`
flags, `cfgApiKey`/`cfgSiteName` the explicit config, `envKey` is
`process.env.OPENROUTER_API_KEY`. -/
def createAssistant (forceMock isDemo : Bool)
    (cfgApiKey cfgSiteName envKey : Option String) : AssistantKind :=
  if forceMock || isDemo then .mock
  else if strTruthy cfgApiKey then
    if keyFormatOk (cfgApiKey.getD "") then
      .live (cfgApiKey.getD "") (siteNameOr cfgSiteName)
    else .mock
  else if !strTruthy envKey then .mock
  else if keyFormatOk (envKey.getD "") then
    .live (envKey.getD "") (siteNameOr cfgSiteName)
  else .mock

/-! ## Lemmas -/

open OpenRouterAssistant

theorem ne_empty_of_trimEmpty_false {s : String} (h : trimEmpty s = false) :
    s ≠ "" := fun he => by subst he; exact absurd h (by decide)

theorem cancelled_not_retryable :
    isRetryable (lowStr "Request was cancelled") = false := by decide

theorem cancelled_maps_to_generic :
    specificErrorMessage "Request was cancelled" = genericErrorMessage := by decide

/-- With the signal already aborted, `fetchResponse` performs no fetch on any
attempt and fails with the cancellation error. -/
theorem fetchAux_aborted (body : RequestBody) (outcomes : Nat → Outcome)
    (rc budget : Nat) :
    fetchAux body true outcomes rc budget =
      ⟨.error "Request was cancelled", [], []⟩ := by
  cases budget with
  | zero => simp [fetchAux, attemptOnce]
  | succ b => simp [fetchAux, attemptOnce, cancelled_not_retryable]

/-- Every body the retry loop puts on the wire is the one body built before the
first attempt. -/
theorem fetchAux_sent_eq_body (body : RequestBody) (outcomes : Nat → Outcome) :
    ∀ budget rc b, b ∈ (fetchAux body false outcomes rc budget).sent →
      b = body := by
  intro budget
  induction budget with
  | zero =>
      intro rc b hb
      unfold fetchAux at hb
      rcases h : attemptOnce false (outcomes rc) with e | c <;>
        simp [h] at hb <;> exact hb
  | succ bud ih =>
      intro rc b hb
      unfold fetchAux at hb
      rcases h : attemptOnce false (outcomes rc) with e | c
      · simp only [h] at hb
        split at hb
        · split at hb
          · simp at hb
            rcases hb with hb | hb
            · exact hb
            · exact ih _ _ hb
          · simp at hb; exact hb
        · simp at hb; exact hb
      · simp [h] at hb; exact hb

/-- For a non-blank message, what `getResponse` sent is what its one
`fetchResponse` call sent. -/
theorem getResponse_sent (envModel : Option String) (demoMode aborted : Bool)
    (outcomes : Nat → Outcome) (u : String) (hist : List Msg)
    (hu : trimEmpty u = false) :
    (getResponse envModel demoMode aborted outcomes u hist).sent =
      (fetchResponse (mkRequestBody (selectModel envModel)
        (buildMessagesArray u hist)) aborted outcomes).sent := by
  simp only [getResponse, hu, Bool.false_eq_true, if_false]
  rcases h : (fetchResponse (mkRequestBody (selectModel envModel)
      (buildMessagesArray u hist)) aborted outcomes).result with c | e <;>
    simp [h] <;> split <;> rfl

/-! ## Claims -/

/-- Claim C4 (confirmed): for every `userMessage` that is empty or
whitespace-only after trimming, the invalid-input guard of `getResponse` fires
before any network activity — the transport is invoked zero times — and the
call resolves to the error record derived from the guard's
`User message cannot be empty` error. -/
theorem c4_invalid_input_before_network (envModel : Option String)
    (demoMode aborted : Bool) (outcomes : Nat → Outcome) (u : String)
    (hist : List Msg) (hu : trimEmpty u = true) :
    (getResponse envModel demoMode aborted outcomes u hist).sent = [] ∧
    (getResponse envModel demoMode aborted outcomes u hist).resp =
      errorResponseFor demoMode "User message cannot be empty" := by
  simp [getResponse, hu]

/-- Witness for C4 at the whitespace-only message. -/
theorem c4_witness :
    trimEmpty "   " = true ∧
    (getResponse none false false (fun _ => Outcome.ok ["ok"]) "   " []).sent = [] ∧
    (getResponse none false false (fun _ => Outcome.ok ["ok"]) "   " []).resp =
      errorResponseFor false "User message cannot be empty" :=
  ⟨by decide,
   c4_invalid_input_before_network none false false (fun _ => Outcome.ok ["ok"])
     "   " [] (by decide)⟩

/-- Claim C5 counterexample: with the cancellation token already aborted, the
transport is never invoked, but the record `getResponse` resolves to carries
the generic error message — the very same record an arbitrary unclassified
provider failure produces — so the outcome is not distinct from the generic
error message. -/
theorem c5_counterexample :
    (getResponse none false true (fun _ => Outcome.ok ["fine"]) "Hello" []).sent
      = [] ∧
    (getResponse none false true (fun _ => Outcome.ok ["fine"]) "Hello" []).resp.response
      = genericErrorMessage ∧
    (getResponse none false true (fun _ => Outcome.ok ["fine"]) "Hello" []).resp
      = (getResponse none false false (fun _ => Outcome.netFail "boom") "Hello" []).resp :=
  ⟨rfl, by decide, by decide⟩

/-- Claim C5 as amended: for every call whose cancellation token is already
aborted when the call starts (demo mode off), no network I/O is performed —
the transport is invoked zero times — and the operation fails internally with
the cancellation error, but resolves to the generic error record
`{genericErrorMessage, "error", 0}` rather than a distinct Cancelled
outcome. -/
theorem c5_aborted_no_network (envModel : Option String)
    (outcomes : Nat → Outcome) (u : String) (hist : List Msg)
    (hu : trimEmpty u = false) :
    (getResponse envModel false true outcomes u hist).sent = [] ∧
    (getResponse envModel false true outcomes u hist).resp =
      ⟨genericErrorMessage, "error", 0⟩ := by
  have hfa := fetchAux_aborted (mkRequestBody (selectModel envModel)
      (buildMessagesArray u hist)) outcomes 0 maxRetries
  simp [getResponse, hu, fetchResponse, hfa, errorResponseFor,
    cancelled_maps_to_generic]

/-- Witness for C5 as amended. -/
theorem c5_witness :
    trimEmpty "Hi" = false ∧
    (getResponse none false true (fun _ => Outcome.timedOut) "Hi" []).sent = [] ∧
    (getResponse none false true (fun _ => Outcome.timedOut) "Hi" []).resp =
      ⟨genericErrorMessage, "error", 0⟩ :=
  ⟨by decide,
   c5_aborted_no_network none (fun _ => Outcome.timedOut) "Hi" [] (by decide)⟩

/-- Claim C2 (code bug), evaluated at the failing input: with HTTP 500 on
attempts 1 and 2 and success on attempt 3, `getResponse` invokes the transport
exactly once and resolves to the generic error record — the 5xx failure is
thrown as `OpenRouter service is temporarily unavailable…`, which fails the
retry check that looks for the substrings `500`/`502`/`503`. The same schedule
with HTTP 429 (whose message contains `rate limit`) IS retried: 3 transport
calls, backoff delays of 1000 ms then 2000 ms, and the successful result. -/
theorem c2_http500_not_retried :
    (getResponse none false false
        (fun n => if n < 2 then Outcome.http 500 "err" else Outcome.ok ["All good"])
        "Hello" []).sent.length = 1 ∧
    (getResponse none false false
        (fun n => if n < 2 then Outcome.http 500 "err" else Outcome.ok ["All good"])
        "Hello" []).resp.model = "error" ∧
    (getResponse none false false
        (fun n => if n < 2 then Outcome.http 500 "err" else Outcome.ok ["All good"])
        "Hello" []).resp.response = genericErrorMessage ∧
    (getResponse none false false
        (fun n => if n < 2 then Outcome.http 429 "err" else Outcome.ok ["All good"])
        "Hello" []).sent.length = 3 ∧
    (getResponse none false false
        (fun n => if n < 2 then Outcome.http 429 "err" else Outcome.ok ["All good"])
        "Hello" []).delays = [1000, 2000] ∧
    (getResponse none false false
        (fun n => if n < 2 then Outcome.http 429 "err" else Outcome.ok ["All good"])
        "Hello" []).resp.response = "All good" := by decide

/-- Claim C8 (confirmed): the payload message array is the history, roles and
contents preserved in order, followed by exactly one final user turn carrying
`userMessage`; its length is the history's plus one, and every body the call
puts on the wire carries exactly that array. -/
theorem c8_payload_order (envModel : Option String) (demoMode aborted : Bool)
    (outcomes : Nat → Outcome) (u : String) (hist : List Msg) :
    buildMessagesArray u hist = hist ++ [⟨"user", u⟩] ∧
    (buildMessagesArray u hist).length = hist.length + 1 ∧
    ∀ b ∈ (getResponse envModel demoMode aborted outcomes u hist).sent,
      b.messages = hist ++ [⟨"user", u⟩] := by
  have hmap : hist.map (fun msg : Msg => (⟨msg.role, msg.content⟩ : Msg)) = hist := by
    have hid : (fun msg : Msg => (⟨msg.role, msg.content⟩ : Msg)) = id := rfl
    rw [hid, List.map_id]
  have hbuild : buildMessagesArray u hist = hist ++ [⟨"user", u⟩] := by
    rw [buildMessagesArray, hmap]
  refine ⟨hbuild, by rw [hbuild]; simp, ?_⟩
  intro b hb
  by_cases hu : trimEmpty u = true
  · rw [(c4_invalid_input_before_network envModel demoMode aborted outcomes
      u hist hu).1] at hb
    simp at hb
  · rw [getResponse_sent envModel demoMode aborted outcomes u hist
      (Bool.not_eq_true _ ▸ hu)] at hb
    cases aborted with
    | true =>
        rw [fetchResponse, fetchAux_aborted] at hb
        simp at hb
    | false =>
        have := fetchAux_sent_eq_body (mkRequestBody (selectModel envModel)
          (buildMessagesArray u hist)) outcomes maxRetries 0 b hb
        rw [this, mkRequestBody, hbuild]

/-- Witness for C8 at a one-turn history. -/
theorem c8_witness :
    buildMessagesArray "hi" [⟨"assistant", "a"⟩] =
      [⟨"assistant", "a"⟩] ++ [⟨"user", "hi"⟩] ∧
    (mkRequestBody "anthropic/claude-3-haiku"
        (buildMessagesArray "hi" [⟨"assistant", "a"⟩])).messages =
      [⟨"assistant", "a"⟩] ++ [⟨"user", "hi"⟩] :=
  ⟨(c8_payload_order none false false (fun _ => Outcome.ok ["x"]) "hi"
      [⟨"assistant", "a"⟩]).1,
   (c8_payload_order none false false (fun _ => Outcome.ok ["x"]) "hi"
      [⟨"assistant", "a"⟩]).2.2
     (mkRequestBody "anthropic/claude-3-haiku"
       (buildMessagesArray "hi" [⟨"assistant", "a"⟩]))
     (List.Mem.head _)⟩

/-- Claim C10 (confirmed): the Local Substitute's completion is independent of
the conversation history — with the same message, the same random draw and no
cancellation, any two histories give the identical response record. -/
theorem c10_mock_history_independent (u : String) (h1 h2 : List Msg)
    (draw : Fin 5) :
    MockAssistant.getResponse u h1 false draw =
      MockAssistant.getResponse u h2 false draw := rfl

/-! ## Non-emptiness and cost lemmas -/

theorem str_append_ne_empty (a b : String) (ha : a ≠ "") : a ++ b ≠ "" := by
  intro hc
  apply ha
  have hlen := congrArg String.length hc
  rw [String.length_append] at hlen
  have ha0 : a.length = 0 := by
    have : String.length "" = 0 := rfl
    omega
  cases a with
  | mk da =>
      cases da with
      | nil => rfl
      | cons c cs => simp [String.length] at ha0

theorem specificErrorMessage_ne_empty (m : String) :
    specificErrorMessage m ≠ "" := by
  simp only [specificErrorMessage]
  split
  · decide
  split
  · decide
  split
  · decide
  split
  · decide
  split
  · decide
  decide

theorem errorResponseFor_response_ne_empty (demoMode : Bool) (m : String) :
    (errorResponseFor demoMode m).response ≠ "" := by
  cases demoMode with
  | false => simpa [errorResponseFor] using specificErrorMessage_ne_empty m
  | true => exact (by decide : demoErrorMessage ≠ "")

theorem rateFor_pos (m : String) : 0 < rateFor m := by
  unfold rateFor
  split
  · norm_num
  next p hfind =>
    have hp : p ∈ costPerToken := List.mem_of_find?_eq_some hfind
    have hpos : 0 < p.2 := by fin_cases hp <;> norm_num
    split
    · norm_num
    · exact hpos

theorem estimateCost_nonneg (s m : String) : 0 ≤ estimateCost s m :=
  mul_nonneg (Nat.cast_nonneg _) (rateFor_pos m).le

/-- Everything Claim C1 needs about one `getResponse` call, in one place. -/
theorem getResponse_invariants (envModel : Option String)
    (demoMode aborted : Bool) (outcomes : Nat → Outcome) (u : String)
    (hist : List Msg) :
    (getResponse envModel demoMode aborted outcomes u hist).resp.response ≠ "" ∧
    0 ≤ (getResponse envModel demoMode aborted outcomes u hist).resp.cost ∧
    (trimEmpty u = false →
      providerFailed (fetchResponse (mkRequestBody (selectModel envModel)
        (buildMessagesArray u hist)) aborted outcomes) →
      (getResponse envModel demoMode aborted outcomes u hist).resp.model = "error" ∧
      (getResponse envModel demoMode aborted outcomes u hist).resp.cost = 0) := by
  by_cases hu : trimEmpty u = true
  · simp only [getResponse, hu, if_true]
    refine ⟨errorResponseFor_response_ne_empty _ _, le_refl 0, ?_⟩
    intro hfalse
    exact absurd hfalse (by decide)
  · have hu' : trimEmpty u = false := Bool.not_eq_true _ ▸ hu
    simp only [getResponse, hu', Bool.false_eq_true, if_false]
    rcases h : (fetchResponse (mkRequestBody (selectModel envModel)
        (buildMessagesArray u hist)) aborted outcomes).result with e | c
    · simp only [h]
      exact ⟨errorResponseFor_response_ne_empty _ _, le_refl 0,
        fun _ _ => ⟨rfl, rfl⟩⟩
    · simp only [h]
      cases htr : trimEmpty c with
      | true =>
          simp only [htr, if_true]
          exact ⟨errorResponseFor_response_ne_empty _ _, le_refl 0,
            fun _ _ => ⟨rfl, rfl⟩⟩
      | false =>
          simp only [htr, Bool.false_eq_true, if_false]
          refine ⟨ne_empty_of_trimEmpty_false htr, estimateCost_nonneg _ _, ?_⟩
          intro _ hPF
          rw [providerFailed, h] at hPF
          simp [htr] at hPF

/-- Claim C1 (confirmed): for every non-empty `userMessage`, every history and
every transport outcome — success, any HTTP error status, network failure,
timeout, malformed body — `getResponse` resolves to a response record (the
embedding is a total function) with non-empty `response` and `cost ≥ 0`, and
whenever the provider path failed the record is the fallback:
`model = "error"`, `cost = 0`, non-empty user-safe `response`. -/
theorem c1_complete_always_resolves (envModel : Option String)
    (demoMode aborted : Bool) (outcomes : Nat → Outcome) (u : String)
    (hist : List Msg) (hu : trimEmpty u = false) :
    (getResponse envModel demoMode aborted outcomes u hist).resp.response ≠ "" ∧
    0 ≤ (getResponse envModel demoMode aborted outcomes u hist).resp.cost ∧
    (providerFailed (fetchResponse (mkRequestBody (selectModel envModel)
        (buildMessagesArray u hist)) aborted outcomes) →
      (getResponse envModel demoMode aborted outcomes u hist).resp.model = "error" ∧
      (getResponse envModel demoMode aborted outcomes u hist).resp.cost = 0 ∧
      (getResponse envModel demoMode aborted outcomes u hist).resp.response ≠ "") := by
  obtain ⟨h1, h2, h3⟩ :=
    getResponse_invariants envModel demoMode aborted outcomes u hist
  exact ⟨h1, h2, fun hPF => ⟨(h3 hu hPF).1, (h3 hu hPF).2, h1⟩⟩

/-- Witness for C1: a 503 failure on every attempt still resolves, to the
error record. -/
theorem c1_witness :
    trimEmpty "Hello" = false ∧
    providerFailed (fetchResponse (mkRequestBody (selectModel none)
      (buildMessagesArray "Hello" [])) false (fun _ => Outcome.http 503 "down")) ∧
    (getResponse none false false (fun _ => Outcome.http 503 "down")
      "Hello" []).resp.model = "error" ∧
    (getResponse none false false (fun _ => Outcome.http 503 "down")
      "Hello" []).resp.cost = 0 ∧
    (getResponse none false false (fun _ => Outcome.http 503 "down")
      "Hello" []).resp.response ≠ "" :=
  ⟨by decide, by decide,
   (c1_complete_always_resolves none false false (fun _ => Outcome.http 503 "down")
       "Hello" [] (by decide)).2.2 (by decide)⟩

/-- The Local Substitute resolves only to records with non-empty echo text and
the fixed positive cost. -/
theorem mock_ok_invariant (u : String) (hist : List Msg) (aborted : Bool)
    (draw : Fin 5) (r : AssistantResponse)
    (h : MockAssistant.getResponse u hist aborted draw = .ok r) :
    r.response ≠ "" ∧ 0 ≤ r.cost := by
  cases aborted with
  | true => simp [MockAssistant.getResponse] at h
  | false =>
      simp only [MockAssistant.getResponse, Bool.false_eq_true, if_false,
        Except.ok.injEq] at h
      subst h
      refine ⟨?_, by norm_num⟩
      rcases draw with ⟨i, hi⟩
      interval_cases i <;>
        · simp only [MockAssistant.mockResponseChoices, List.get]
          apply str_append_ne_empty
          apply str_append_ne_empty
          decide

/-- Claim C3 (confirmed): every record either implementation produces — the
Live Client's success path, its error-fallback path, and the Local
Substitute — has non-empty `response` and `cost ≥ 0`. -/
theorem c3_result_invariant :
    (∀ (envModel : Option String) (demoMode aborted : Bool)
        (outcomes : Nat → Outcome) (u : String) (hist : List Msg),
      (getResponse envModel demoMode aborted outcomes u hist).resp.response ≠ "" ∧
      0 ≤ (getResponse envModel demoMode aborted outcomes u hist).resp.cost) ∧
    (∀ (u : String) (hist : List Msg) (aborted : Bool) (draw : Fin 5)
        (r : AssistantResponse),
      MockAssistant.getResponse u hist aborted draw = .ok r →
      r.response ≠ "" ∧ 0 ≤ r.cost) :=
  ⟨fun envModel demoMode aborted outcomes u hist =>
    ⟨(getResponse_invariants envModel demoMode aborted outcomes u hist).1,
     (getResponse_invariants envModel demoMode aborted outcomes u hist).2.1⟩,
   fun u hist aborted draw r h => mock_ok_invariant u hist aborted draw r h⟩

/-- Witness for C3 on both implementations. -/
theorem c3_witness :
    ((getResponse none false false (fun _ => Outcome.timedOut) "Yo" []).resp.response ≠ "" ∧
      0 ≤ (getResponse none false false (fun _ => Outcome.timedOut) "Yo" []).resp.cost) ∧
    ((⟨(MockAssistant.mockResponseChoices "Yo").get
          ⟨0, by simp [MockAssistant.mockResponseChoices]⟩,
        "demo-assistant-v1", 1 / 1000⟩ : AssistantResponse).response ≠ "" ∧
      0 ≤ (⟨(MockAssistant.mockResponseChoices "Yo").get
          ⟨0, by simp [MockAssistant.mockResponseChoices]⟩,
        "demo-assistant-v1", 1 / 1000⟩ : AssistantResponse).cost) :=
  ⟨c3_result_invariant.1 none false false (fun _ => Outcome.timedOut) "Yo" [],
   c3_result_invariant.2 "Yo" [] false 0 _ rfl⟩

/-! ## Cost estimation: the ceiling characterisation (Claim C7) -/

theorem tokensOf_ceil (s : String) :
    (tokensOf s : ℤ) = Int.ceil ((s.length : ℚ) / 4) := by
  rw [eq_comm, Int.ceil_eq_iff]
  simp only [tokensOf]
  obtain ⟨t, ht⟩ : ∃ t, (s.length + 3) / 4 = t := ⟨_, rfl⟩
  rw [ht]
  have h1 : s.length ≤ 4 * t := by omega
  have h2 : 4 * t ≤ s.length + 3 := by omega
  have h1q : ((s.length : ℚ)) ≤ 4 * (t : ℚ) := by exact_mod_cast h1
  have h2q : 4 * (t : ℚ) ≤ (s.length : ℚ) + 3 := by exact_mod_cast h2
  constructor
  · rw [lt_div_iff₀ (by norm_num : (0 : ℚ) < 4)]
    push_cast
    linarith
  · rw [div_le_iff₀ (by norm_num : (0 : ℚ) < 4)]
    push_cast
    linarith

/-- Claim C7 (confirmed): the estimated cost is
`ceil(length(response) / 4) × rate(model)`, the rate looked up in the static
table with unknown identifiers falling back to the default `0.000001`, and the
estimate is always non-negative. -/
theorem c7_cost_formula (s m : String) :
    estimateCost s m = (tokensOf s : ℚ) * rateFor m ∧
    (tokensOf s : ℤ) = Int.ceil ((s.length : ℚ) / 4) ∧
    ((∀ p ∈ costPerToken, p.1 ≠ m) → rateFor m = 1 / 1000000) ∧
    0 ≤ estimateCost s m := by
  refine ⟨rfl, tokensOf_ceil s, ?_, estimateCost_nonneg s m⟩
  intro hunk
  unfold rateFor
  have hnone : costPerToken.find? (fun p => p.1 == m) = none := by
    rw [List.find?_eq_none]
    intro p hp
    simpa using hunk p hp
  rw [hnone]

/-- Witness for C7 at an unknown model identifier. -/
theorem c7_witness :
    rateFor "mystery-model" = 1 / 1000000 ∧
    estimateCost "All good" "mystery-model" = 2 * (1 / 1000000) ∧
    0 ≤ estimateCost "All good" "mystery-model" := by
  have h := c7_cost_formula "All good" "mystery-model"
  have hr : rateFor "mystery-model" = 1 / 1000000 := h.2.2.1 (by decide)
  have ht : tokensOf "All good" = 2 := rfl
  refine ⟨hr, ?_, h.2.2.2⟩
  rw [h.1, hr, ht]
  norm_num

/-! ## The selector (Claim C9) -/

theorem strTruthy_some (s : String) : strTruthy (some s) = (s != "") := rfl

/-- Claim C9 (confirmed): `createAssistant` is a total function — it never
raises — and resolves every configuration to an instance: a set demo/force-mock
flag gives the Local Substitute; an explicit or environment credential without
the `sk-or-v1-` format gives the Local Substitute rather than a construction
failure; no credential anywhere gives the Local Substitute; a well-formed
credential gives the Live Client carrying it. -/
theorem c9_selector_fallbacks (forceMock isDemo : Bool)
    (cfgApiKey cfgSiteName envKey : Option String) :
    ((forceMock || isDemo) = true →
      createAssistant forceMock isDemo cfgApiKey cfgSiteName envKey = .mock) ∧
    (∀ k, (forceMock || isDemo) = false → cfgApiKey = some k → k ≠ "" →
      keyFormatOk k = false →
      createAssistant forceMock isDemo cfgApiKey cfgSiteName envKey = .mock) ∧
    (∀ k, (forceMock || isDemo) = false → cfgApiKey = some k → k ≠ "" →
      keyFormatOk k = true →
      createAssistant forceMock isDemo cfgApiKey cfgSiteName envKey =
        .live k (siteNameOr cfgSiteName)) ∧
    ((forceMock || isDemo) = false → strTruthy cfgApiKey = false →
      strTruthy envKey = false →
      createAssistant forceMock isDemo cfgApiKey cfgSiteName envKey = .mock) ∧
    (∀ k, (forceMock || isDemo) = false → strTruthy cfgApiKey = false →
      envKey = some k → k ≠ "" → keyFormatOk k = false →
      createAssistant forceMock isDemo cfgApiKey cfgSiteName envKey = .mock) ∧
    (∀ k, (forceMock || isDemo) = false → strTruthy cfgApiKey = false →
      envKey = some k → k ≠ "" → keyFormatOk k = true →
      createAssistant forceMock isDemo cfgApiKey cfgSiteName envKey =
        .live k (siteNameOr cfgSiteName)) := by
  refine ⟨?_, ?_, ?_, ?_, ?_, ?_⟩
  · intro hOr
    simp [createAssistant, hOr]
  · intro k hOr hc hk hfmt
    subst hc
    simp [createAssistant, hOr, strTruthy_some, hk, hfmt]
  · intro k hOr hc hk hfmt
    subst hc
    simp [createAssistant, hOr, strTruthy_some, hk, hfmt]
  · intro hOr h1 h2
    simp [createAssistant, hOr, h1, h2]
  · intro k hOr h1 he hk hfmt
    subst he
    simp [createAssistant, hOr, h1, strTruthy_some, hk, hfmt]
  · intro k hOr h1 he hk hfmt
    subst he
    simp [createAssistant, hOr, h1, strTruthy_some, hk, hfmt]

/-- Witness for C9: a malformed explicit credential falls back to the Local
Substitute; a well-formed environment credential yields the Live Client. -/
theorem c9_witness :
    createAssistant false false (some "bad-key") none none = .mock ∧
    createAssistant false false none none (some "sk-or-v1-xyz") =
      .live "sk-or-v1-xyz" (siteNameOr none) :=
  ⟨(c9_selector_fallbacks false false (some "bad-key") none none).2.1 "bad-key"
      rfl rfl (by decide) (by decide),
   (c9_selector_fallbacks false false none none (some "sk-or-v1-xyz")).2.2.2.2.2
      "sk-or-v1-xyz" rfl (by decide) rfl (by decide) (by decide)⟩

/-! ## Usage statistics (Claim C6) -/

theorem record_snd_sum (mu : List (String × Nat)) (m : String) :
    ((recordModelUsage mu m).map Prod.snd).sum = (mu.map Prod.snd).sum + 1 := by
  induction mu with
  | nil => simp [recordModelUsage]
  | cons p rest ih =>
      obtain ⟨k, c⟩ := p
      by_cases hk : (k == m) = true
      · simp [recordModelUsage, hk]
        omega
      · simp only [recordModelUsage, hk, Bool.false_eq_true, if_false,
          List.map_cons, List.sum_cons, ih]
        omega

theorem mem_keys_record (mu : List (String × Nat)) (m x : String) :
    x ∈ keysOf (recordModelUsage mu m) ↔ x ∈ keysOf mu ∨ x = m := by
  induction mu with
  | nil => simp [recordModelUsage, keysOf]
  | cons p rest ih =>
      obtain ⟨k, c⟩ := p
      by_cases hk : (k == m) = true
      · have hkm : k = m := by simpa using hk
        subst hkm
        simp [recordModelUsage, keysOf]
        tauto
      · simp only [recordModelUsage, hk, Bool.false_eq_true, if_false, keysOf,
          List.map_cons, List.mem_cons] at ih ⊢
        tauto

theorem nodup_keys_record (mu : List (String × Nat)) (m : String)
    (h : (keysOf mu).Nodup) : (keysOf (recordModelUsage mu m)).Nodup := by
  induction mu with
  | nil => simp [recordModelUsage, keysOf]
  | cons p rest ih =>
      obtain ⟨k, c⟩ := p
      simp only [keysOf, List.map_cons, List.nodup_cons] at h
      obtain ⟨hknotin, hrest⟩ := h
      by_cases hk : (k == m) = true
      · have hkeys : keysOf (recordModelUsage ((k, c) :: rest) m) =
            keysOf ((k, c) :: rest) := by
          simp [recordModelUsage, hk, keysOf]
        rw [hkeys]
        simp only [keysOf, List.map_cons, List.nodup_cons]
        exact ⟨hknotin, hrest⟩
      · have hkm : k ≠ m := by simpa using hk
        simp only [recordModelUsage, hk, Bool.false_eq_true, if_false, keysOf,
          List.map_cons, List.nodup_cons]
        refine ⟨?_, ih hrest⟩
        intro hmem
        rcases (mem_keys_record rest m k).mp hmem with hin | hEq
        · exact hknotin hin
        · exact hkm hEq

theorem lookupCount_record_self (mu : List (String × Nat)) (m : String) :
    lookupCount (recordModelUsage mu m) m = lookupCount mu m + 1 := by
  induction mu with
  | nil => simp [recordModelUsage, lookupCount]
  | cons p rest ih =>
      obtain ⟨k, c⟩ := p
      by_cases hk : (k == m) = true
      · simp [recordModelUsage, hk, lookupCount]
      · simp [recordModelUsage, hk, lookupCount, ih]

theorem lookupCount_record_other (mu : List (String × Nat)) (m x : String)
    (hx : x ≠ m) : lookupCount (recordModelUsage mu m) x = lookupCount mu x := by
  induction mu with
  | nil =>
      have : (m == x) = false := by simpa using (Ne.symm hx)
      simp [recordModelUsage, lookupCount, this]
  | cons p rest ih =>
      obtain ⟨k, c⟩ := p
      by_cases hk : (k == m) = true
      · have hkm : k = m := by simpa using hk
        subst hkm
        have : (k == x) = false := by simpa using (Ne.symm hx)
        simp [recordModelUsage, lookupCount, this]
      · by_cases hkx : (k == x) = true
        · simp [recordModelUsage, hk, lookupCount, hkx]
        · simp [recordModelUsage, hk, lookupCount, hkx, ih]

theorem lookupCount_foldl (ms : List String) (mu : List (String × Nat))
    (x : String) :
    lookupCount (ms.foldl recordModelUsage mu) x = lookupCount mu x + ms.count x := by
  induction ms generalizing mu with
  | nil => simp
  | cons m rest ih =>
      rw [List.foldl_cons, ih]
      by_cases hx : x = m
      · subst hx
        rw [lookupCount_record_self]
        simp [List.count_cons]
        omega
      · rw [lookupCount_record_other _ _ _ hx]
        have : (m == x) = false := by simpa using (Ne.symm hx)
        simp [List.count_cons, this]

theorem mem_keys_foldl (ms : List String) (mu : List (String × Nat))
    (x : String) :
    x ∈ keysOf (ms.foldl recordModelUsage mu) ↔ x ∈ keysOf mu ∨ x ∈ ms := by
  induction ms generalizing mu with
  | nil => simp
  | cons m rest ih =>
      rw [List.foldl_cons, ih]
      simp only [mem_keys_record, List.mem_cons]
      tauto

theorem nodup_keys_foldl (ms : List String) (mu : List (String × Nat))
    (h : (keysOf mu).Nodup) : (keysOf (ms.foldl recordModelUsage mu)).Nodup := by
  induction ms generalizing mu with
  | nil => simpa
  | cons m rest ih => exact ih _ (nodup_keys_record _ _ h)

theorem snd_sum_foldl (ms : List String) (mu : List (String × Nat)) :
    ((ms.foldl recordModelUsage mu).map Prod.snd).sum =
      (mu.map Prod.snd).sum + ms.length := by
  induction ms generalizing mu with
  | nil => simp
  | cons m rest ih =>
      rw [List.foldl_cons, ih, record_snd_sum]
      simp
      omega

theorem lookup_of_mem (mu : List (String × Nat)) (h : (keysOf mu).Nodup)
    (p : String × Nat) (hp : p ∈ mu) : lookupCount mu p.1 = p.2 := by
  induction mu with
  | nil => simp at hp
  | cons q rest ih =>
      obtain ⟨k, c⟩ := q
      simp only [keysOf, List.map_cons, List.nodup_cons] at h
      rcases List.mem_cons.mp hp with hEq | hMem
      · rw [hEq]
        simp [lookupCount]
      · have hp1 : p.1 ∈ keysOf rest := List.mem_map_of_mem Prod.fst hMem
        have hne : (k == p.1) = false := by
          simp only [beq_eq_false_iff_ne, ne_eq]
          intro hkp
          exact h.1 (hkp ▸ hp1)
        simp only [lookupCount, hne, Bool.false_eq_true, if_false]
        exact ih h.2 hMem

theorem sum_map_div_mul (l : List Nat) (T : ℚ) :
    (l.map (fun c : Nat => (c : ℚ) / T * 100)).sum = ((l.sum : ℚ)) / T * 100 := by
  induction l with
  | nil => simp
  | cons a l ih =>
      simp only [List.map_cons, List.sum_cons, ih]
      push_cast
      ring

/-- Claim C6 counterexample: on a freshly constructed Local Substitute,
`getModelUsageStats` is the constant single row `{mock, 1, 100}` — not the
empty sequence the claim asserts for a fresh instance of either
implementation. -/
theorem c6_counterexample :
    MockAssistant.getModelUsageStats ≠ ([] : List UsageStat) := by
  simp [MockAssistant.getModelUsageStats]

/-- Claim C6 as amended: the Live Client's `getModelUsageStats` on a fresh
instance is the empty sequence, and after `n > 0` successful completions it
holds one entry per distinct model used, each entry's count being that model's
number of completions and its percentage `count / total × 100` against the
running total, the percentages summing to 100; the Local Substitute's
`getModelUsageStats`, however, is always the fixed single row `{mock, 1, 100}`,
also on a fresh instance. -/
theorem c6_usage_stats (ms : List String) (hms : ms ≠ []) :
    getModelUsageStats (usageAfter []) = [] ∧
    MockAssistant.getModelUsageStats = [⟨"mock", 1, 100⟩] ∧
    ((getModelUsageStats (usageAfter ms)).map UsageStat.model).Nodup ∧
    (∀ x, x ∈ (getModelUsageStats (usageAfter ms)).map UsageStat.model ↔ x ∈ ms) ∧
    (∀ st ∈ getModelUsageStats (usageAfter ms),
      st.count = ms.count st.model ∧
      st.percentage = (st.count : ℚ) / (ms.length : ℚ) * 100) ∧
    ((getModelUsageStats (usageAfter ms)).map UsageStat.percentage).sum = 100 := by
  have htotal : ((usageAfter ms).map Prod.snd).sum = ms.length := by
    have := snd_sum_foldl ms []
    simpa [usageAfter] using this
  have hlen : ms.length ≠ 0 := by
    intro h0
    exact hms (List.length_eq_zero.mp h0)
  have hcond : ((ms.length == 0) : Bool) = false := by
    simpa using hlen
  have hstats : getModelUsageStats (usageAfter ms) =
      (usageAfter ms).map (fun p =>
        ⟨p.1, p.2, (p.2 : ℚ) / ((ms.length : ℚ)) * 100⟩) := by
    simp only [getModelUsageStats, htotal, hcond, Bool.false_eq_true, if_false]
  have hnd : (keysOf (usageAfter ms)).Nodup := by
    apply nodup_keys_foldl
    simp [keysOf]
  have hmodelmap : (getModelUsageStats (usageAfter ms)).map UsageStat.model =
      keysOf (usageAfter ms) := by
    rw [hstats, keysOf, List.map_map]
    rfl
  refine ⟨rfl, rfl, ?_, ?_, ?_, ?_⟩
  · rw [hmodelmap]
    exact hnd
  · intro x
    rw [hmodelmap]
    have := mem_keys_foldl ms [] x
    simpa [usageAfter, keysOf] using this
  · intro st hst
    rw [hstats] at hst
    obtain ⟨p, hp, hfp⟩ := List.mem_map.mp hst
    have hcount : lookupCount (usageAfter ms) p.1 = p.2 :=
      lookup_of_mem (usageAfter ms) hnd p hp
    have hcnt : p.2 = ms.count p.1 := by
      have h2 : lookupCount (usageAfter ms) p.1 =
          lookupCount [] p.1 + ms.count p.1 := lookupCount_foldl ms [] p.1
      rw [hcount] at h2
      simpa [lookupCount] using h2
    subst hfp
    exact ⟨by simpa using hcnt, rfl⟩
  · rw [hstats, List.map_map]
    have hcomp : (UsageStat.percentage ∘ fun p : String × Nat =>
        (⟨p.1, p.2, (p.2 : ℚ) / ((ms.length : ℚ)) * 100⟩ : UsageStat)) =
      (fun c : Nat => (c : ℚ) / ((ms.length : ℚ)) * 100) ∘ Prod.snd := rfl
    rw [hcomp, ← List.map_map, sum_map_div_mul, htotal]
    rw [div_self (by exact_mod_cast hlen), one_mul]

/-- Witness for C6 at three completions split 2-and-1 across two models. -/
theorem c6_witness :
    (["a", "a", "b"] : List String) ≠ [] ∧
    (getModelUsageStats (usageAfter []) = [] ∧
     MockAssistant.getModelUsageStats = [⟨"mock", 1, 100⟩] ∧
     ((getModelUsageStats (usageAfter ["a", "a", "b"])).map UsageStat.model).Nodup ∧
     (∀ x, x ∈ (getModelUsageStats (usageAfter ["a", "a", "b"])).map UsageStat.model ↔
        x ∈ (["a", "a", "b"] : List String)) ∧
     (∀ st ∈ getModelUsageStats (usageAfter ["a", "a", "b"]),
       st.count = (["a", "a", "b"] : List String).count st.model ∧
       st.percentage = (st.count : ℚ) / (((["a", "a", "b"] : List String).length : ℚ)) * 100) ∧
     ((getModelUsageStats (usageAfter ["a", "a", "b"])).map UsageStat.percentage).sum = 100) :=
  ⟨by decide, c6_usage_stats ["a", "a", "b"] (by decide)⟩

end ChatApp
